import Mathlib

/-!
Verification of the OGP protocol stub.

The repository contains four C++ files: `src/protocol/protocol.h`,
`src/protocol/protocol.cc`, `src/client/client.cc` and
`src/server/server.cc`.  The protocol layer is a stub whose
`Serialize` and `Deserialize` methods return their input unchanged,
and the two entry points print three lines and return exit code 0.
We embed the code shallowly: a `std::string` (an arbitrary byte
sequence) becomes a list of byte values, the `Protocol` object (which
has no data members) becomes a fieldless structure, and the non-const
methods are given in explicit state-passing style, returning the
object after the call alongside the result, so that absence of
mutation is a provable statement rather than a modelling assumption.
-/

/-- A C++ `std::string`: an arbitrary finite sequence of byte values. -/
abbrev ByteStr := List Nat

namespace ogp

/-- `constexpr uint16_t kProtocolVersion = 1;` (protocol.h, line 10). -/
def kProtocolVersion : Nat := 1

/-- The `Protocol` class (protocol.h, lines 13-26).  It declares no data
members, so the embedded structure has no fields; the constructor and
destructor bodies in protocol.cc are empty. -/
structure Protocol

/-- `uint16_t Protocol::GetVersion() const { return kProtocolVersion; }`
(protocol.cc, lines 9-11).  The method is `const`, so it is embedded as
a pure function of the object. -/
def Protocol.GetVersion (_ : Protocol) : Nat := kProtocolVersion

/-- `std::string Protocol::Serialize(const std::string& message)`
(protocol.cc, lines 13-16): the body is `return message;`.  The method
is not `const`, so the embedding threads the object: the second
component is the state of the object after the call. -/
def Protocol.Serialize (p : Protocol) (message : ByteStr) : ByteStr × Protocol :=
  (message, p)

/-- `std::string Protocol::Deserialize(const std::string& data)`
(protocol.cc, lines 18-21): the body is `return data;`. -/
def Protocol.Deserialize (p : Protocol) (data : ByteStr) : ByteStr × Protocol :=
  (data, p)

/-- `main` of src/client/client.cc (lines 4-14): prints three lines
built around `protocol.GetVersion()` and returns 0.  The embedding
returns the sequence of lines written to standard output together with
the exit code; `argv` is a parameter because C++ `main` receives it,
though the body never reads it. -/
def clientMain (_argv : List String) : List String × Nat :=
  let protocol : Protocol := ⟨⟩
  (["OGP Client starting...",
    "Protocol version: " ++ toString protocol.GetVersion,
    "OGP Client ready"], 0)

/-- `main` of src/server/server.cc (lines 4-14): identical to the
client entry point except for the banner text. -/
def serverMain (_argv : List String) : List String × Nat :=
  let protocol : Protocol := ⟨⟩
  (["OGP Server starting...",
    "Protocol version: " ++ toString protocol.GetVersion,
    "OGP Server ready"], 0)

end ogp

open ogp

/-- C1: for every string `s`, `Protocol::Serialize(s)` returns `s`
unchanged, and for every string `d`, `Protocol::Deserialize(d)` returns
`d` unchanged: both methods are the identity function on strings. -/
theorem serialize_deserialize_are_identity (p : Protocol) (s d : ByteStr) :
    (p.Serialize s).1 = s ∧ (p.Deserialize d).1 = d :=
  ⟨rfl, rfl⟩

/-- C2: round-trip law.  For every Message `m` (in particular every `m`
within any size limit), `Deserialize(Serialize(m))`, with the object
state threaded through the first call, yields `m` again. -/
theorem deserialize_serialize_roundtrip (p : Protocol) (m : ByteStr) :
    (((p.Serialize m).2).Deserialize (p.Serialize m).1).1 = m :=
  rfl

/-- C3: every `Protocol` object reports `kProtocolVersion` from
`GetVersion`, and `kProtocolVersion` equals 1. -/
theorem getVersion_is_kProtocolVersion (p : Protocol) :
    p.GetVersion = kProtocolVersion ∧ kProtocolVersion = 1 :=
  ⟨rfl, rfl⟩

/-- C4 counterexample: with the spec's example maximum of 16 MiB,
`Serialize` applied to a payload of length `maxLength + 1 = 16777217`
does not fail with `PayloadTooLarge`: it succeeds and returns the
payload unchanged (its signature has no failure channel at all). -/
theorem serialize_overlong_payload_succeeds :
    (Protocol.mk.Serialize (List.replicate 16777217 0)).1
      = List.replicate 16777217 0 ∧
    (List.replicate 16777217 0).length = 16777216 + 1 :=
  ⟨rfl, by rw [List.length_replicate]⟩

/-- C4 amended: `Serialize` enforces no size limit and never fails:
for a payload of any length whatsoever it succeeds, returning the
payload unchanged with the object state untouched. -/
theorem serialize_total_any_length (p : Protocol) (m : ByteStr) :
    p.Serialize m = (m, p) :=
  rfl

/-- C5 counterexample: on the buffer `[0, 2, 0, 0, 0, 0]`, whose
big-endian `u16` version field is `2 ≠ kProtocolVersion`, `Deserialize`
does not fail with `VersionMismatch`: it succeeds and returns the whole
buffer unchanged. -/
theorem deserialize_bad_version_succeeds :
    (Protocol.mk.Deserialize [0, 2, 0, 0, 0, 0]).1 = [0, 2, 0, 0, 0, 0] ∧
    [0, 2, 0, 0, 0, 0].take 2 = [0, 2] ∧
    0 * 256 + 2 ≠ kProtocolVersion :=
  ⟨rfl, rfl, by decide⟩

/-- C5 amended: `Deserialize` never inspects a version field and never
fails: for any two leading bytes (any version field value) and any
remaining bytes it returns the input buffer unchanged. -/
theorem deserialize_ignores_version_field (p : Protocol) (v0 v1 : Nat)
    (rest : ByteStr) :
    (p.Deserialize (v0 :: v1 :: rest)).1 = v0 :: v1 :: rest :=
  rfl

/-- C6 counterexample: serializing the 4-byte payload `"abcd"` yields 4
bytes, not `6 + 4` bytes: the stub adds no frame header. -/
theorem serialize_no_frame_header :
    (Protocol.mk.Serialize [97, 98, 99, 100]).1.length = 4 ∧
    (4 : Nat) ≠ 6 + 4 :=
  ⟨rfl, by decide⟩

/-- C6 amended: serializing a payload of length `L` produces exactly
`L` bytes, namely the payload itself, and has no side effects: the
object state after the call is exactly the state before it. -/
theorem serialize_output_length (p : Protocol) (m : ByteStr) :
    (p.Serialize m).1 = m ∧ ((p.Serialize m).1).length = m.length ∧
    (p.Serialize m).2 = p :=
  ⟨rfl, rfl, rfl⟩

/-- C7: for any command line, both entry points write exactly the
startup line, the protocol version line, and the ready line to standard
output, in that order, and return exit code 0; no other output (hence
no data exchange) occurs. -/
theorem client_server_output_and_exit_code (a b : List String) :
    clientMain a = (["OGP Client starting...",
                     "Protocol version: 1",
                     "OGP Client ready"], 0) ∧
    serverMain b = (["OGP Server starting...",
                     "Protocol version: 1",
                     "OGP Server ready"], 0) :=
  ⟨rfl, rfl⟩

/-- C8: noninterference with the command line: any two invocations of
the client (or the server) with different argv produce identical
standard output and identical exit codes. -/
theorem mains_ignore_arguments (a b : List String) :
    clientMain a = clientMain b ∧ serverMain a = serverMain b :=
  ⟨rfl, rfl⟩

/-- C9: the reverse round-trip also holds in the stub: for every string
`d`, `Serialize(Deserialize(d))`, with the object state threaded
through the first call, yields `d` again. -/
theorem serialize_deserialize_reverse_roundtrip (p : Protocol) (d : ByteStr) :
    (((p.Deserialize d).2).Serialize (p.Deserialize d).1).1 = d :=
  rfl

/-- C10: `Protocol` is stateless and its operations total.  Every call
returns (no failure channel, any input including the empty string),
leaves the object exactly as it was, and the result is the same on any
two objects regardless of their call histories, so it depends only on
the argument. -/
theorem protocol_stateless_and_total (p q : Protocol) (m d : ByteStr) :
    (p.Serialize m).2 = p ∧ (p.Deserialize d).2 = p ∧
    (p.Serialize m).1 = (q.Serialize m).1 ∧
    (p.Deserialize d).1 = (q.Deserialize d).1 ∧
    p.GetVersion = q.GetVersion ∧
    (p.Serialize []).1 = [] ∧ (p.Deserialize []).1 = [] :=
  ⟨rfl, rfl, rfl, rfl, rfl, rfl, rfl⟩
